import Mathlib

/-!
Verification development for the Kandy traffic sampling script (src/main.py).

The script splits road polylines into short segments (geodesy + segmenter),
scrapes a directions page per segment with a bounded retry loop, parses the
rendered text with regular expressions, and collects one result row per
segment.

Modelling conventions:
* Python floats are idealised as real numbers (`ℝ`) in the geodesy code and
  as rationals (`ℚ`) in the parser, where every value manipulated is a finite
  decimal.  Machine rounding is irrelevant to every property checked here.
* The two regular-expression searches of the script
  (`(\d+\s*h)?\s*(\d+\s*min)?`, `(\d+)\s*h`, `(\d+)\s*min`, `([\d.]+)\s*km`)
  are embedded as executable scanning functions on `List Char`; the embedding
  follows leftmost-match semantics with greedy backtracking, which for these
  patterns reduces to: a maximal digit run, all following whitespace skipped,
  then the literal unit.  `\d` and `\s` are modelled on their ASCII meaning.
* Network and browser effects (`page.goto`, `page.inner_text`) are an oracle
  `ℕ → Except String (List Char)` mapping the attempt number to either a
  raised exception (carrying its `str(e)` message) or the rendered text.
* Wall-clock fields of the result row (`timestamp_utc`, `process_time_sec`)
  are environment readings with no bearing on any claim and are omitted.
-/

namespace KandyTraffic

/-- A Python value as stored in the script row dictionaries: either a
string or a float.  Generated segment rows hold floats for coordinates and a
string for the id; rows loaded back from CSV hold strings everywhere. -/
inductive PyVal where
  | s : String → PyVal
  | f : ℝ → PyVal

/-- A segment-catalogue row, mirroring the dict built in `generate_segments`
(keys `segment_id`, `start_lat`, `start_lng`, `end_lat`, `end_lng`). -/
structure Row where
  segment_id : PyVal
  start_lat : PyVal
  start_lng : PyVal
  end_lat : PyVal
  end_lng : PyVal

/-- The per-segment result dict of `scrape_segment`.  `timestamp_utc` and
`process_time_sec` (wall-clock readings) are omitted; every other key is
modelled. -/
structure SampleResult where
  segment_id : PyVal
  start_lat : PyVal
  start_lng : PyVal
  end_lat : PyVal
  end_lng : PyVal
  time_min : Option ℕ
  distance_km : Option ℚ
  avg_speed_kmh : Option ℚ
  status : String

/-- Retry bound `MAX_RETRIES = 2` from the script config block. -/
def MAX_RETRIES : ℕ := 2

/-- ASCII whitespace recognised by the `\s` class. -/
def pyIsSpace (c : Char) : Bool :=
  c = ' ' || c = '\t' || c = '\n' || c = '\r' || c = Char.ofNat 11 || c = Char.ofNat 12

/-- Anchored match of `(\d+)\s*unit` at the head of `l`, returning the digit
group.  With a greedy `\d+` the match succeeds exactly when the maximal digit
run is nonempty and the unit literal follows the whitespace after it. -/
def matchNumUnit (unit : List Char) (l : List Char) : Option (List Char) :=
  let ds := l.takeWhile Char.isDigit
  if ds.isEmpty then none
  else if unit.isPrefixOf ((l.drop ds.length).dropWhile pyIsSpace) then some ds
  else none

/-- Anchored match of `([\d.]+)\s*km` at the head of `l`, returning the
`[\d.]+` group. -/
def matchNumKm (l : List Char) : Option (List Char) :=
  let ds := l.takeWhile (fun c => c.isDigit || c = '.')
  if ds.isEmpty then none
  else if [ 'k', 'm'].isPrefixOf ((l.drop ds.length).dropWhile pyIsSpace) then some ds
  else none

/-- Model of `re.search`: try the anchored matcher at each position, leftmost first. -/
def searchNum (m : List Char → Option (List Char)) : List Char → Option (List Char)
  | [] => none
  | c :: cs =>
    match m (c :: cs) with
    | some ds => some ds
    | none => searchNum m cs

/-- Group 1 of `re.search(r"(\d+)\s*h", ...)`. -/
def searchNumH : List Char → Option (List Char) := searchNum (matchNumUnit ['h'])

/-- Group 1 of `re.search(r"(\d+)\s*min", ...)`. -/
def searchNumMin : List Char → Option (List Char) := searchNum (matchNumUnit ['m', 'i', 'n'])

/-- Group 1 of `re.search(r"([\d.]+)\s*km", ...)`. -/
def searchNumKm : List Char → Option (List Char) := searchNum matchNumKm

/-- Length consumed by an anchored match of `\d+\s*unit` at the head of `l`
(digits, then the whitespace run, then the unit literal). -/
def matchSpan (unit : List Char) (l : List Char) : Option ℕ :=
  let ds := l.takeWhile Char.isDigit
  if ds.isEmpty then none
  else
    let ws := (l.drop ds.length).takeWhile pyIsSpace
    if unit.isPrefixOf (l.drop (ds.length + ws.length)) then
      some (ds.length + ws.length + unit.length)
    else none

/-- Text `group(0)` of `re.search(r"(\d+\s*h)?\s*(\d+\s*min)?", content)`.
Both groups are optional, so the pattern matches at position 0 of every
string (possibly as the empty match); `re.search` therefore always returns
this match: optional hour part, greedy whitespace, optional minute part. -/
def tGroup0 (l : List Char) : List Char :=
  let n1 := (matchSpan ['h'] l).getD 0
  let r1 := l.drop n1
  let nws := (r1.takeWhile pyIsSpace).length
  let n2 := (matchSpan ['m', 'i', 'n'] (r1.drop nws)).getD 0
  l.take (n1 + nws + n2)

/-- Python `int()` on a nonempty all-digit string. -/
def pyNat (ds : List Char) : ℕ := ds.foldl (fun n c => n * 10 + (c.toNat - 48)) 0

/-- Python `float()` on a string drawn from the `[\d.]+` class: defined exactly when
the string has at least one digit and at most one dot (Python raises
`ValueError` otherwise, e.g. on `"1.2.3"` or `"."`). -/
def pyFloatQ (ds : List Char) : Option ℚ :=
  if ds.any Char.isDigit then
    match ds.splitOn '.' with
    | [a] => if a.all Char.isDigit then some (pyNat a) else none
    | [a, b] =>
      if a.all Char.isDigit && b.all Char.isDigit then
        some ((pyNat a : ℚ) + (pyNat b : ℚ) / 10 ^ b.length)
      else none
    | _ => none
  else none

/-- Python `round` to the nearest integer, ties to even. -/
def roundHalfEven (q : ℚ) : ℤ :=
  let fl := ⌊q⌋
  let r := q - fl
  if r < 1 / 2 then fl
  else if 1 / 2 < r then fl + 1
  else if fl % 2 = 0 then fl else fl + 1

/-- Python `round(x, 2)`. -/
def round2 (q : ℚ) : ℚ := (roundHalfEven (q * 100) : ℚ) / 100

/-- The ASCII apostrophe used by the Python `ValueError` message. -/
def quoteC : Char := Char.ofNat 39

/-- Message `str(e)` for the `ValueError` raised by `float()` on a bad literal. -/
def floatErrMsg (ds : List Char) : String :=
  String.mk (("could not convert string to float: ").toList ++ [quoteC] ++ ds ++ [quoteC])

/-- Python slicing `s[:40]`. -/
def trunc40 (s : String) : String := String.mk (s.toList.take 40)

/-- The `result` dict as initialised at the top of `scrape_segment`. -/
def initResult (seg : Row) : SampleResult :=
  { segment_id := seg.segment_id, start_lat := seg.start_lat, start_lng := seg.start_lng,
    end_lat := seg.end_lat, end_lng := seg.end_lng,
    time_min := none, distance_km := none, avg_speed_kmh := none, status := "failed" }

/-- The body of the `try:` block of `scrape_segment` after a successful fetch
returned `content`.  Returns the (possibly mutated) result dict and the
message of the exception raised inside the block, if any.  Mirrors the
source order: `t_match` always exists (see `tGroup0`), so the `if` guard is
equivalent to `d_match` being present; `time_min` is assigned before
`float()` runs on the distance group, so a `ValueError` leaves the mutated
`time_min` behind. -/
def tryBody (content : List Char) (r : SampleResult) : SampleResult × Option String :=
  match searchNumKm content with
  | none => (r, none)
  | some ds =>
    let g0 := tGroup0 content
    let hNum := match searchNumH g0 with | some hs => pyNat hs | none => 0
    let mNum := match searchNumMin g0 with | some ms => pyNat ms | none => 0
    let total := hNum * 60 + mNum
    let r1 := { r with time_min := some total }
    match pyFloatQ ds with
    | none => (r1, some (floatErrMsg ds))
    | some q =>
      let r2 := { r1 with distance_km := some q }
      if 0 < total then
        ({ r2 with
            avg_speed_kmh := some (round2 (q / ((total : ℚ) / 60))),
            status := "success" }, none)
      else (r2, none)

/-- One loop iteration of `scrape_segment`: the fetch (`page.goto` +
`page.inner_text`) either raises, or yields text fed to the parse block. -/
def attemptStep (fr : Except String (List Char)) (r : SampleResult) : SampleResult × Option String :=
  match fr with
  | .error e => (r, some e)
  | .ok content => tryBody content r

/-- The retry loop `for attempt in range(1, MAX_RETRIES + 1)` over the
remaining attempt numbers.  A clean iteration hits `break`; an exception on
the final attempt stamps the `error:` status.  Also counts the fetch
attempts performed. -/
def runAttempts (fetch : ℕ → Except String (List Char)) :
    List ℕ → SampleResult → SampleResult × ℕ
  | [], r => (r, 0)
  | a :: rest, r =>
    match attemptStep (fetch a) r with
    | (r1, none) => (r1, 1)
    | (r1, some e) =>
      match rest with
      | [] => ({ r1 with status := "error: " ++ trunc40 e }, 1)
      | b :: bs =>
        let next := runAttempts fetch (b :: bs) r1
        (next.1, next.2 + 1)

/-- Function `scrape_segment`, parametrised by the fetch oracle; returns the result
row and the number of fetch attempts performed. -/
def scrape_segment (fetch : ℕ → Except String (List Char)) (seg : Row) : SampleResult × ℕ :=
  runAttempts fetch (List.range' 1 MAX_RETRIES) (initResult seg)

/-- The per-segment loop of `main`: one `scrape_segment` call per catalogue
row, results appended in catalogue order.  `fetchFor` gives the fetch oracle
seen by the `idx`-th segment. -/
def runAll (fetchFor : ℕ → ℕ → Except String (List Char)) (segs : List Row) : List SampleResult :=
  (segs.enum).map (fun p => (scrape_segment (fetchFor p.1) p.2).1)

/-- Concrete row used to instantiate witnesses (coordinates as loaded from
CSV, i.e. strings). -/
def seg0 : Row :=
  { segment_id := PyVal.s ("1"), start_lat := PyVal.s ("0"), start_lng := PyVal.s ("0"),
    end_lat := PyVal.s ("0"), end_lng := PyVal.s ("0") }

/-! ### Geodesy and the segmenter (real-valued) -/

noncomputable section

/-- Python `math.radians`. -/
def radians (x : ℝ) : ℝ := x * Real.pi / 180

/-- Python `math.atan2` (the standard total two-argument arctangent; signed floating
zeros have no counterpart in `ℝ`). -/
def atan2 (y x : ℝ) : ℝ :=
  if 0 < x then Real.arctan (y / x)
  else if x = 0 then (if 0 < y then Real.pi / 2 else if y < 0 then -(Real.pi / 2) else 0)
  else if 0 ≤ y then Real.arctan (y / x) + Real.pi
  else Real.arctan (y / x) - Real.pi

/-- Function `haversine` from the script: great-circle distance in km, `R = 6371.0`. -/
def haversine (lat1 lng1 lat2 lng2 : ℝ) : ℝ :=
  let R : ℝ := 6371
  let phi1 := radians lat1
  let phi2 := radians lat2
  let dphi := radians (lat2 - lat1)
  let dlambda := radians (lng2 - lng1)
  let a := Real.sin (dphi / 2) ^ 2 +
    Real.cos phi1 * Real.cos phi2 * Real.sin (dlambda / 2) ^ 2
  R * 2 * atan2 (Real.sqrt a) (Real.sqrt (1 - a))

/-- Python `int()` on a float: truncation toward zero. -/
def pyTrunc (r : ℝ) : ℤ := if 0 ≤ r then ⌊r⌋ else ⌈r⌉

/-- Step count `steps = max(1, int(total_dist / max_dist_m))` from `interpolate_points`. -/
def steps (t m : ℝ) : ℤ := max 1 (pyTrunc (t / m))

/-- Function `interpolate_points` from the script (`max_dist_m` passed explicitly;
the script default is 5). -/
def interpolate_points (lat1 lng1 lat2 lng2 maxd : ℝ) : List (ℝ × ℝ) :=
  let t := haversine lat1 lng1 lat2 lng2 * 1000
  let s := steps t maxd
  (List.range (s.toNat + 1)).map
    (fun i => (lat1 + (lat2 - lat1) * i / (s : ℝ), lng1 + (lng2 - lng1) * i / (s : ℝ)))

/-- Consecutive pairs `(pts[j], pts[j+1])` for `j in range(len(pts) - 1)`. -/
def pairsOf (pts : List (ℝ × ℝ)) : List ((ℝ × ℝ) × (ℝ × ℝ)) := pts.zip pts.tail

/-- The rows appended for one consecutive point pair of a route: one row per
consecutive pair of the interpolation, ids counting up from `n`. -/
def segRowsOf (p q : ℝ × ℝ) (n : ℕ) : List Row :=
  (pairsOf (interpolate_points p.1 p.2 q.1 q.2 5)).enum.map
    (fun jab =>
      { segment_id := PyVal.s (toString (n + jab.1)),
        start_lat := PyVal.f jab.2.1.1, start_lng := PyVal.f jab.2.1.2,
        end_lat := PyVal.f jab.2.2.1, end_lng := PyVal.f jab.2.2.2 })

/-- One direction pass over a route: rows for every consecutive point pair,
threading the id counter. -/
def emitPairs : List ((ℝ × ℝ) × (ℝ × ℝ)) → ℕ → List Row × ℕ
  | [], n => ([], n)
  | pq :: rest, n =>
    let rs := segRowsOf pq.1 pq.2 n
    let next := emitPairs rest (n + rs.length)
    (rs ++ next.1, next.2)

/-- The road loop of `generate_segments`: forward pass then reverse pass per
road, one global id counter across all roads and both directions.  The road
name is not used, exactly as in the script. -/
def buildGo : List (String × List (ℝ × ℝ)) → ℕ → List Row
  | [], _ => []
  | rd :: rest, n =>
    let fwd := emitPairs (pairsOf rd.2) n
    let rev := emitPairs (pairsOf rd.2.reverse) fwd.2
    fwd.1 ++ rev.1 ++ buildGo rest rev.2

/-- All rows generated from a road set; the counter starts at 1.  The road
set is a parameter: `roads.py` (the `ROADS` dict) is not among the sources,
and the segmenter is uniform in it. -/
def buildRows (roads : List (String × List (ℝ × ℝ))) : List Row := buildGo roads 1

/-- The generation branch of `generate_segments` (no catalogue file present):
build all rows, then write and return them.  The write accesses
`segments[0].keys()`, which raises `IndexError` on an empty row list. -/
def generate_segments_fresh (roads : List (String × List (ℝ × ℝ))) :
    Except String (List Row) :=
  match buildRows roads with
  | [] => Except.error ("list index out of range")
  | r :: rest => Except.ok (r :: rest)

/-- Rendering `str()` of a row value as applied by `csv.DictWriter`: strings verbatim,
floats through the float renderer of the Python runtime.  The renderer is a
parameter — no claim depends on its exact decimal output. -/
def pyStrOf (render : ℝ → String) : PyVal → String
  | PyVal.s s => s
  | PyVal.f x => render x

/-- A catalogue row after the CSV write/read roundtrip of `generate_segments`:
`csv.DictReader` yields every field back as a string. -/
def loadRow (render : ℝ → String) (r : Row) : Row :=
  { segment_id := PyVal.s (pyStrOf render r.segment_id),
    start_lat := PyVal.s (pyStrOf render r.start_lat),
    start_lng := PyVal.s (pyStrOf render r.start_lng),
    end_lat := PyVal.s (pyStrOf render r.end_lat),
    end_lng := PyVal.s (pyStrOf render r.end_lng) }

/-- The load branch of `generate_segments` applied to a just-written
catalogue: every stored row read back, in file order. -/
def loadRows (render : ℝ → String) (rows : List Row) : List Row :=
  rows.map (loadRow render)

/-- The haversine length in metres of a generated segment row (defined when
the coordinate fields are floats, as generation produces them). -/
def segLenM (r : Row) : Option ℝ :=
  match r.start_lat, r.start_lng, r.end_lat, r.end_lng with
  | PyVal.f a, PyVal.f b, PyVal.f c, PyVal.f d => some (haversine a b c d * 1000)
  | _, _, _, _ => none

/-- Longitude offset of the concrete example route: `8e-05` degrees, about
8.9 m along the equator. -/
def lEx : ℝ := 1 / 12500

/-- A one-road example set: two points on the equator, `lEx` degrees of
longitude apart. -/
def roadsEx : List (String × List (ℝ × ℝ)) := [(("r"), [((0 : ℝ), (0 : ℝ)), (0, lEx)])]

/-- The forward segment generated from `roadsEx`. -/
def rowEx1 : Row :=
  { segment_id := PyVal.s ("1"), start_lat := PyVal.f 0, start_lng := PyVal.f 0,
    end_lat := PyVal.f 0, end_lng := PyVal.f lEx }

/-- The reverse segment generated from `roadsEx`. -/
def rowEx2 : Row :=
  { segment_id := PyVal.s ("2"), start_lat := PyVal.f 0, start_lng := PyVal.f lEx,
    end_lat := PyVal.f 0, end_lng := PyVal.f 0 }

end

/-! ### Structural lemmas about the retry loop -/

/-- The parse block never touches the identity and coordinate fields. -/
lemma tryBody_segment_id (c : List Char) (r : SampleResult) :
    (tryBody c r).1.segment_id = r.segment_id := by
  cases hk : searchNumKm c with
  | none => simp [tryBody, hk]
  | some ds =>
    cases hf : pyFloatQ ds with
    | none => simp [tryBody, hk, hf]
    | some q =>
      simp only [tryBody, hk, hf]
      split <;> rfl

/-- The parse block leaves the status alone unless it stamps `success`. -/
lemma tryBody_status (c : List Char) (r : SampleResult) :
    (tryBody c r).1.status = r.status ∨ (tryBody c r).1.status = "success" := by
  cases hk : searchNumKm c with
  | none => left; simp [tryBody, hk]
  | some ds =>
    cases hf : pyFloatQ ds with
    | none => left; simp [tryBody, hk, hf]
    | some q =>
      simp only [tryBody, hk, hf]
      split
      · right; rfl
      · left; rfl

/-- A fetch attempt never touches the identity field. -/
lemma attemptStep_segment_id (fr : Except String (List Char)) (r : SampleResult) :
    (attemptStep fr r).1.segment_id = r.segment_id := by
  cases fr with
  | error e => rfl
  | ok content => exact tryBody_segment_id content r

/-- A fetch attempt leaves the status alone unless it stamps `success`. -/
lemma attemptStep_status (fr : Except String (List Char)) (r : SampleResult) :
    (attemptStep fr r).1.status = r.status ∨ (attemptStep fr r).1.status = "success" := by
  cases fr with
  | error e => left; rfl
  | ok content => exact tryBody_status content r

/-- The whole retry loop never touches the identity field. -/
lemma runAttempts_segment_id (fetch : ℕ → Except String (List Char)) :
    ∀ (as : List ℕ) (r : SampleResult),
      (runAttempts fetch as r).1.segment_id = r.segment_id := by
  intro as
  induction as with
  | nil => intro r; rfl
  | cons a rest ih =>
    intro r
    show (runAttempts fetch (a :: rest) r).1.segment_id = r.segment_id
    rw [runAttempts]
    rcases hs : attemptStep (fetch a) r with ⟨r1, e⟩
    have hid : r1.segment_id = r.segment_id := by
      have := attemptStep_segment_id (fetch a) r
      rw [hs] at this
      exact this
    cases e with
    | none => simpa using hid
    | some msg =>
      cases rest with
      | nil => simpa using hid
      | cons b bs =>
        dsimp only
        rw [ih r1]
        exact hid

/-- Status values reachable by the retry loop from a start row: unchanged,
`success`, or an `error:`-prefixed string. -/
lemma runAttempts_status (fetch : ℕ → Except String (List Char)) :
    ∀ (as : List ℕ) (r : SampleResult),
      (runAttempts fetch as r).1.status = r.status ∨
      (runAttempts fetch as r).1.status = "success" ∨
      ∃ d, (runAttempts fetch as r).1.status = "error: " ++ d := by
  intro as
  induction as with
  | nil => intro r; left; rfl
  | cons a rest ih =>
    intro r
    rw [runAttempts]
    rcases hs : attemptStep (fetch a) r with ⟨r1, e⟩
    have hst : r1.status = r.status ∨ r1.status = "success" := by
      have := attemptStep_status (fetch a) r
      rw [hs] at this
      exact this
    cases e with
    | none =>
      rcases hst with h1 | h1
      · left; simpa using h1
      · right; left; simpa using h1
    | some msg =>
      cases rest with
      | nil =>
        right; right
        exact ⟨trunc40 msg, rfl⟩
      | cons b bs =>
        dsimp only
        rcases ih r1 with h | h | ⟨d, h⟩
        · rcases hst with h1 | h1
          · left; rw [h, h1]
          · right; left; rw [h, h1]
        · right; left; exact h
        · right; right; exact ⟨d, h⟩

/-- Unfolding of the two-attempt loop: `range(1, MAX_RETRIES + 1)` is `[1, 2]`. -/
lemma scrape_segment_eq (fetch : ℕ → Except String (List Char)) (seg : Row) :
    scrape_segment fetch seg = runAttempts fetch [1, 2] (initResult seg) := rfl

/-- An iteration whose try-block raises nothing hits `break`: the loop stops
after this single attempt. -/
lemma runAttempts_break (fetch : ℕ → Except String (List Char)) (a : ℕ) (rest : List ℕ)
    (r : SampleResult) (h : (attemptStep (fetch a) r).2 = none) :
    runAttempts fetch (a :: rest) r = ((attemptStep (fetch a) r).1, 1) := by
  rcases hs : attemptStep (fetch a) r with ⟨r1, e⟩
  rw [hs] at h
  simp only at h
  subst h
  rw [runAttempts, hs]

/-- A parse block that finds no `km` match mutates nothing and raises nothing. -/
lemma tryBody_no_km (c : List Char) (r : SampleResult) (hk : searchNumKm c = none) :
    tryBody c r = (r, none) := by
  simp [tryBody, hk]

/-- A parse block with a `km` match whose group converts records the distance
and raises nothing. -/
lemma tryBody_km_float (c : List Char) (r : SampleResult) (ds : List Char) (q : ℚ)
    (hk : searchNumKm c = some ds) (hf : pyFloatQ ds = some q) :
    (tryBody c r).2 = none ∧ (tryBody c r).1.distance_km = some q := by
  simp only [tryBody, hk, hf]
  split <;> exact ⟨rfl, rfl⟩

/-- The retry loop never changes the identity field of the result row. -/
lemma scrape_segment_id_eq (fetch : ℕ → Except String (List Char)) (seg : Row) :
    (scrape_segment fetch seg).1.segment_id = seg.segment_id := by
  rw [scrape_segment_eq, runAttempts_segment_id]
  rfl

/-! ### Claims C2, C3, C6, C7, C10: the fetch-and-parse step -/

/-- C2 (counterexample): the text `"3.9 km"` contains neither an hour-unit
token nor a minutes-unit token, yet the parsing step sets `time_min` to `0`,
not null: the time pattern `(\d+\s*h)?\s*(\d+\s*min)?` always matches (as the
empty string), so whenever a `km` match exists the script assigns
`total_min = 0*60 + 0`. -/
theorem C2_counterexample :
    searchNumH (("3.9 km").toList) = none ∧
    searchNumMin (("3.9 km").toList) = none ∧
    (scrape_segment (fun _ => Except.ok (("3.9 km").toList)) seg0).1.time_min = some 0 :=
  ⟨by decide, by decide, by decide⟩

/-- C2 (amended): for every fetched text containing no kilometre-unit match —
in particular any token-free text without a `km` figure — the parse block is
skipped entirely and `time_min` stays null.  (With a `km` match present,
token-free text instead yields `time_min = 0`, per the counterexample.) -/
theorem C2_amended (c : List Char) (seg : Row) (hk : searchNumKm c = none) :
    (scrape_segment (fun _ => Except.ok c) seg).1.time_min = none := by
  rw [scrape_segment_eq,
    runAttempts_break _ 1 [2] _ (by simp [attemptStep, tryBody_no_km c _ hk])]
  simp [attemptStep, tryBody_no_km c _ hk, initResult]

/-- C2 (witness): concrete run of the amended claim on `"No route found"`. -/
theorem C2_witness :
    searchNumKm (("No route found").toList) = none ∧
    (scrape_segment (fun _ => Except.ok (("No route found").toList)) seg0).1.time_min = none :=
  ⟨by decide, C2_amended _ seg0 (by decide)⟩

/-- C3 (amended): a fetch step that raises on every attempt yields exactly
`MAX_RETRIES` fetch attempts, as claimed; but the final status is the string
`"error: "` followed by the first 40 characters of the last exception
message — the script never produces the enum value `timeout`. -/
theorem C3_amended (msgs : ℕ → String) (seg : Row) :
    (scrape_segment (fun a => Except.error (msgs a)) seg).2 = MAX_RETRIES ∧
    (scrape_segment (fun a => Except.error (msgs a)) seg).1.status =
      "error: " ++ trunc40 (msgs MAX_RETRIES) := by
  constructor <;>
    simp [scrape_segment_eq, runAttempts, attemptStep, MAX_RETRIES]

/-- C3 (counterexample): with a fetch raising a Playwright-style timeout
message on every attempt, the loop performs exactly `MAX_RETRIES` attempts but
the recorded status is not `timeout`. -/
theorem C3_counterexample :
    (scrape_segment (fun _ => Except.error ("Timeout 60000ms exceeded.")) seg0).2 =
      MAX_RETRIES ∧
    (scrape_segment (fun _ => Except.error ("Timeout 60000ms exceeded.")) seg0).1.status =
      "error: Timeout 60000ms exceeded." ∧
    (scrape_segment (fun _ => Except.error ("Timeout 60000ms exceeded.")) seg0).1.status ≠
      "timeout" :=
  ⟨by decide, by decide, by decide⟩

/-- C6 (counterexample): a fetch that succeeds but returns text with no usable
data yields status `"failed"`, which is none of the four claimed enum values —
in particular the no-data case is not recorded as `parse_error`. -/
theorem C6_counterexample :
    (scrape_segment (fun _ => Except.ok (("Google Maps").toList)) seg0).1.status = "failed" ∧
    (scrape_segment (fun _ => Except.ok (("Google Maps").toList)) seg0).1.status ≠ "success" ∧
    (scrape_segment (fun _ => Except.ok (("Google Maps").toList)) seg0).1.status ≠ "timeout" ∧
    (scrape_segment (fun _ => Except.ok (("Google Maps").toList)) seg0).1.status ≠
      "parse_error" ∧
    (scrape_segment (fun _ => Except.ok (("Google Maps").toList)) seg0).1.status ≠
      "other_error" :=
  ⟨by decide, by decide, by decide, by decide, by decide⟩

/-- C6 (amended): every result of `scrape_segment` carries one of the statuses
`"failed"` (initial value, kept when a fetch succeeds but parsing finds no
`km` match or a zero duration), `"success"`, or an `"error: "`-prefixed
string; a successful fetch whose text has no `km` match is recorded as
`"failed"`. -/
theorem C6_amended (fetch : ℕ → Except String (List Char)) (seg : Row) :
    ((scrape_segment fetch seg).1.status = "failed" ∨
     (scrape_segment fetch seg).1.status = "success" ∨
     ∃ d, (scrape_segment fetch seg).1.status = "error: " ++ d) ∧
    (∀ c, fetch 1 = Except.ok c → searchNumKm c = none →
      (scrape_segment fetch seg).1.status = "failed") := by
  constructor
  · have h := runAttempts_status fetch [1, 2] (initResult seg)
    rw [scrape_segment_eq]
    simpa [initResult] using h
  · intro c h1 hk
    rw [scrape_segment_eq,
      runAttempts_break _ 1 [2] _ (by simp [attemptStep, h1, tryBody_no_km c _ hk])]
    simp [attemptStep, h1, tryBody_no_km c _ hk, initResult]

/-- C6 (witness): concrete run of the amended claim at the no-data case. -/
theorem C6_witness :
    (fun _ : ℕ => (Except.ok (("Google").toList) : Except String (List Char))) 1 =
      Except.ok (("Google").toList) ∧
    searchNumKm (("Google").toList) = none ∧
    (scrape_segment (fun _ : ℕ => Except.ok (("Google").toList)) seg0).1.status = "failed" :=
  ⟨rfl, by decide, (C6_amended _ seg0).2 _ rfl (by decide)⟩

/-- Modelled from the spec: the Parser rule "if absent, a meter-unit number is
accepted and divided by 1000" speaks of a meter-unit number — a number
immediately followed by the meter token `m`.  The script itself has no meter
pattern at all; this definition exists only to state the refuted claim C7. -/
def searchNumMeterSpec : List Char → Option (List Char) := searchNum (matchNumUnit ['m'])

/-- C7 (counterexample): the text `"500 m"` has a meter-unit number and no
kilometre-unit number, yet the script records a null distance — the claimed
divide-by-1000 meter fallback does not exist. -/
theorem C7_counterexample :
    searchNumMeterSpec (("500 m").toList) = some (("500").toList) ∧
    searchNumKm (("500 m").toList) = none ∧
    (scrape_segment (fun _ => Except.ok (("500 m").toList)) seg0).1.distance_km = none ∧
    (scrape_segment (fun _ => Except.ok (("500 m").toList)) seg0).1.distance_km ≠
      some (500 / 1000) :=
  ⟨by decide, by decide, by decide, by decide⟩

/-- C7 (amended): distance extraction uses only the first kilometre-unit
match: when present and convertible its value is recorded unchanged (in km);
when no kilometre-unit match exists the distance stays null — meter-unit
numbers are never consulted. -/
theorem C7_amended (c : List Char) (seg : Row) :
    (searchNumKm c = none →
      (scrape_segment (fun _ => Except.ok c) seg).1.distance_km = none) ∧
    (∀ ds q, searchNumKm c = some ds → pyFloatQ ds = some q →
      (scrape_segment (fun _ => Except.ok c) seg).1.distance_km = some q) := by
  constructor
  · intro hk
    rw [scrape_segment_eq,
      runAttempts_break _ 1 [2] _ (by simp [attemptStep, tryBody_no_km c _ hk])]
    simp [attemptStep, tryBody_no_km c _ hk, initResult]
  · intro ds q hk hf
    have h := tryBody_km_float c (initResult seg) ds q hk hf
    rw [scrape_segment_eq, runAttempts_break _ 1 [2] _ (by simp [attemptStep, h.1])]
    simpa [attemptStep] using h.2

/-- C7 (witness): concrete run of the amended claim on `"12 km"` (both
branches instantiated). -/
theorem C7_witness :
    (searchNumKm (("no figures here").toList) = none ∧
      (scrape_segment (fun _ => Except.ok (("no figures here").toList)) seg0).1.distance_km =
        none) ∧
    (searchNumKm (("12 km").toList) = some (("12").toList) ∧
      pyFloatQ (("12").toList) = some ((12 : ℕ) : ℚ) ∧
      (scrape_segment (fun _ => Except.ok (("12 km").toList)) seg0).1.distance_km =
        some ((12 : ℕ) : ℚ)) :=
  ⟨⟨by decide, (C7_amended (("no figures here").toList) seg0).1 (by decide)⟩,
   ⟨by decide, by decide,
    (C7_amended (("12 km").toList) seg0).2 (("12").toList) ((12 : ℕ) : ℚ)
      (by decide) (by decide)⟩⟩

/-- C10 (confirmed): on the text `"1.2.3 km"` the first kilometre-unit match
group is `"1.2.3"`, which `float()` rejects; the exception is raised inside
the try-block, so the attempt is retried like a fetch failure: the loop
performs all `MAX_RETRIES` attempts and the final attempt stamps the
truncated `ValueError` status — there is no terminal parse record without
retry. -/
theorem C10_theorem :
    searchNumKm (("1.2.3 km").toList) = some (("1.2.3").toList) ∧
    pyFloatQ (("1.2.3").toList) = none ∧
    (scrape_segment (fun _ => Except.ok (("1.2.3 km").toList)) seg0).2 = MAX_RETRIES ∧
    (scrape_segment (fun _ => Except.ok (("1.2.3 km").toList)) seg0).1.status =
      String.mk ((("error: could not convert string to float: ").toList) ++ [quoteC] ++
        (("1.2.").toList)) :=
  ⟨by decide, by decide, by decide, by decide⟩

/-! ### Claim C4: the per-segment loop of `main` -/

/-- Mapping `scrape_segment` over an enumerated catalogue preserves the
sequence of segment ids. -/
lemma runAll_from (f : ℕ → ℕ → Except String (List Char)) :
    ∀ (n : ℕ) (segs : List Row),
      ((List.enumFrom n segs).map (fun p => (scrape_segment (f p.1) p.2).1)).map
          SampleResult.segment_id = segs.map Row.segment_id := by
  intro n segs
  induction segs generalizing n with
  | nil => rfl
  | cons s ss ih =>
    simp only [List.enumFrom, List.map]
    rw [scrape_segment_id_eq, ih]

/-- C4 (confirmed): a completed run over a catalogue of `N` segments produces
exactly `N` results, one per segment in catalogue order (witnessed by the
sequence of segment ids), for every behaviour of the fetch oracle — per-
segment failures are absorbed by `scrape_segment` and never abort the loop. -/
theorem C4_theorem (f : ℕ → ℕ → Except String (List Char)) (segs : List Row) :
    (runAll f segs).length = segs.length ∧
    (runAll f segs).map SampleResult.segment_id = segs.map Row.segment_id := by
  refine ⟨?_, ?_⟩
  · simp [runAll]
  · have h := runAll_from f 0 segs
    simpa [runAll, List.enum] using h

/-! ### Geodesy lemmas -/

/-- Values of `atan2` at a nonnegative ordinate are nonnegative. -/
lemma atan2_nonneg (y x : ℝ) (hy : 0 ≤ y) : 0 ≤ atan2 y x := by
  have hπ := Real.pi_pos
  unfold atan2
  split_ifs with h1 h2 h3 h4
  · have : (0 : ℝ) ≤ y / x := div_nonneg hy h1.le
    have h0 := Real.arctan_strictMono.monotone this
    rwa [Real.arctan_zero] at h0
  · linarith
  · linarith
  · linarith
  · have := Real.neg_pi_div_two_lt_arctan (y / x)
    linarith

/-- The haversine distance is never negative. -/
lemma haversine_nonneg (lat1 lng1 lat2 lng2 : ℝ) : 0 ≤ haversine lat1 lng1 lat2 lng2 := by
  simp only [haversine]
  have h := atan2_nonneg
    (Real.sqrt (Real.sin (radians (lat2 - lat1) / 2) ^ 2 +
      Real.cos (radians lat1) * Real.cos (radians lat2) *
        Real.sin (radians (lng2 - lng1) / 2) ^ 2))
    (Real.sqrt (1 - (Real.sin (radians (lat2 - lat1) / 2) ^ 2 +
      Real.cos (radians lat1) * Real.cos (radians lat2) *
        Real.sin (radians (lng2 - lng1) / 2) ^ 2)))
    (Real.sqrt_nonneg _)
  nlinarith

/-- Key bound: dividing a nonnegative total distance by
`max(1, floor(dist / L))` always yields a value strictly below `2 L` (though
not `≤ L`, as the counterexample to C1 shows). -/
lemma div_steps_lt (t L : ℝ) (ht : 0 ≤ t) (hL : 0 < L) :
    t / ((steps t L : ℤ) : ℝ) < 2 * L := by
  have hq : 0 ≤ t / L := div_nonneg ht hL.le
  have htr : pyTrunc (t / L) = ⌊t / L⌋ := if_pos hq
  have hlt : t / L < (⌊t / L⌋ : ℝ) + 1 := Int.lt_floor_add_one _
  rcases le_or_lt (⌊t / L⌋) 1 with hk1 | hk1
  · have hs : steps t L = 1 := by
      rw [steps, htr, max_eq_left hk1]
    rw [hs]
    simp only [Int.cast_one, div_one]
    have hcast : ((⌊t / L⌋ : ℝ) + 1) ≤ 2 := by
      have : ((⌊t / L⌋ : ℝ)) ≤ 1 := by exact_mod_cast hk1
      linarith
    have h2 : t / L < 2 := lt_of_lt_of_le hlt hcast
    calc t = t / L * L := by field_simp
    _ < 2 * L := by nlinarith
  · have hs : steps t L = ⌊t / L⌋ := by
      rw [steps, htr, max_eq_right hk1.le]
    rw [hs]
    have hk2 : (2 : ℝ) ≤ (⌊t / L⌋ : ℝ) := by exact_mod_cast hk1
    have hkpos : (0 : ℝ) < ((⌊t / L⌋ : ℤ) : ℝ) := by linarith
    rw [div_lt_iff₀ hkpos]
    have h1 : t < ((⌊t / L⌋ : ℝ) + 1) * L := by
      rw [div_lt_iff₀ hL] at hlt
      linarith
    have h2 : ((⌊t / L⌋ : ℝ) + 1) * L ≤ 2 * L * (⌊t / L⌋ : ℝ) := by nlinarith
    linarith

/-- C1 (amended): with `steps = max(1, floor(dist / L))` the per-segment
share the segmenter takes of each point pair haversine distance is strictly less
than `2 L`, but not `≤ L`: flooring instead of taking the ceiling lets
segments exceed the configured maximum (see the counterexample, a segment of
about 8.9 m under the default `L = 5`). -/
theorem C1_amended (lat1 lng1 lat2 lng2 L : ℝ) (hL : 0 < L) :
    haversine lat1 lng1 lat2 lng2 * 1000 /
      ((steps (haversine lat1 lng1 lat2 lng2 * 1000) L : ℤ) : ℝ) < 2 * L :=
  div_steps_lt _ L (mul_nonneg (haversine_nonneg _ _ _ _) (by norm_num)) hL

/-- C1 (witness): the amended bound instantiated at a degenerate pair and the
default maximum length. -/
theorem C1_witness :
    (0 : ℝ) < 5 ∧
    haversine 0 0 0 0 * 1000 / ((steps (haversine 0 0 0 0 * 1000) 5 : ℤ) : ℝ) < 2 * 5 :=
  ⟨by norm_num, C1_amended 0 0 0 0 5 (by norm_num)⟩

/-! ### Evaluating the segmenter on the equator example -/

/-- On the equator the haversine formula collapses to arc length:
`haversine 0 l1 0 l2 = R * radians |l2 - l1|` for offsets below 180°. -/
lemma haversine_equator (l1 l2 : ℝ) (h : |l2 - l1| < 180) :
    haversine 0 l1 0 l2 = 6371 * (|l2 - l1| * Real.pi / 180) := by
  have hπ := Real.pi_pos
  set x := |l2 - l1| * Real.pi / 360 with hxdef
  have habs : (0 : ℝ) ≤ |l2 - l1| := abs_nonneg _
  have hx0 : 0 ≤ x := by positivity
  have hx2 : x < Real.pi / 2 := by
    rw [hxdef, div_lt_div_iff₀ (by norm_num) (by norm_num : (0 : ℝ) < 2)]
    nlinarith
  have hsin0 : 0 ≤ Real.sin x :=
    Real.sin_nonneg_of_nonneg_of_le_pi hx0 (by linarith)
  have hcos : 0 < Real.cos x :=
    Real.cos_pos_of_mem_Ioo ⟨by linarith, hx2⟩
  have hsinsq : Real.sin (radians (l2 - l1) / 2) ^ 2 = Real.sin x ^ 2 := by
    rcases abs_cases (l2 - l1) with ⟨ha, _⟩ | ⟨ha, _⟩
    · have : radians (l2 - l1) / 2 = x := by
        rw [hxdef, ha, radians]; ring
      rw [this]
    · have : radians (l2 - l1) / 2 = -x := by
        rw [hxdef, ha, radians]; ring
      rw [this, Real.sin_neg]; ring
  have hzero : radians 0 = 0 := by rw [radians]; ring
  simp only [haversine, sub_zero, hzero, zero_div, Real.sin_zero, Real.cos_zero,
    one_mul, ne_eq, OfNat.ofNat_ne_zero, not_false_eq_true, zero_pow, zero_add, hsinsq]
  have hsqrt1 : Real.sqrt (Real.sin x ^ 2) = Real.sin x := Real.sqrt_sq hsin0
  have hone : 1 - Real.sin x ^ 2 = Real.cos x ^ 2 := by
    have := Real.sin_sq_add_cos_sq x
    linarith
  have hsqrt2 : Real.sqrt (1 - Real.sin x ^ 2) = Real.cos x := by
    rw [hone]
    exact Real.sqrt_sq hcos.le
  rw [hsqrt1, hsqrt2]
  have hatan : atan2 (Real.sin x) (Real.cos x) = x := by
    rw [atan2, if_pos hcos, ← Real.tan_eq_sin_div_cos]
    exact Real.arctan_tan (by linarith) hx2
  rw [hatan, hxdef]
  ring

/-- Haversine of the forward example pair. -/
lemma hav_ex1 : haversine 0 0 0 lEx = 6371 * (lEx * Real.pi / 180) := by
  have habs : |lEx - 0| = lEx := by
    rw [sub_zero]
    exact abs_of_nonneg (by rw [lEx]; norm_num)
  have h := haversine_equator 0 lEx (by rw [habs, lEx]; norm_num)
  rwa [habs] at h

/-- Haversine of the reverse example pair (same value). -/
lemma hav_ex2 : haversine 0 lEx 0 0 = 6371 * (lEx * Real.pi / 180) := by
  have habs : |0 - lEx| = lEx := by
    rw [zero_sub, abs_neg]
    exact abs_of_nonneg (by rw [lEx]; norm_num)
  have h := haversine_equator lEx 0 (by rw [habs, lEx]; norm_num)
  rwa [habs] at h

/-- The example pair is about 8.9 m long: more than 5 m. -/
lemma tEx_gt5 : 5 < 6371 * (lEx * Real.pi / 180) * 1000 := by
  have h := Real.pi_gt_d2
  rw [lEx]
  nlinarith

/-- The example pair is shorter than 10 m. -/
lemma tEx_lt10 : 6371 * (lEx * Real.pi / 180) * 1000 < 10 := by
  have h := Real.pi_lt_d2
  have hπ := Real.pi_pos
  rw [lEx]
  nlinarith

/-- The example pair gets a single interpolation step:
`max(1, int(8.9 / 5)) = 1`. -/
lemma steps_ex : steps (6371 * (lEx * Real.pi / 180) * 1000) 5 = 1 := by
  have h5 := tEx_gt5
  have h10 := tEx_lt10
  have hq : (0 : ℝ) ≤ 6371 * (lEx * Real.pi / 180) * 1000 / 5 := by linarith
  have hfloor : ⌊6371 * (lEx * Real.pi / 180) * 1000 / 5⌋ = 1 := by
    rw [Int.floor_eq_iff]
    constructor
    · push_cast
      rw [le_div_iff₀ (by norm_num : (0 : ℝ) < 5)]
      linarith
    · push_cast
      rw [div_lt_iff₀ (by norm_num : (0 : ℝ) < 5)]
      linarith
  rw [steps, pyTrunc, if_pos hq, hfloor, max_self]

/-- Interpolating the forward example pair yields just its two endpoints. -/
lemma interp_ex1 : interpolate_points 0 0 0 lEx 5 = [(0, 0), (0, lEx)] := by
  have hs : steps (haversine 0 0 0 lEx * 1000) 5 = 1 := by
    rw [hav_ex1]
    exact steps_ex
  simp only [interpolate_points, hs]
  norm_num [List.range_succ]

/-- Interpolating the reverse example pair yields just its two endpoints. -/
lemma interp_ex2 : interpolate_points 0 lEx 0 0 5 = [(0, lEx), (0, 0)] := by
  have hs : steps (haversine 0 lEx 0 0 * 1000) 5 = 1 := by
    rw [hav_ex2]
    exact steps_ex
  simp only [interpolate_points, hs]
  norm_num [List.range_succ]

/-- The forward example pair emits exactly one segment row. -/
lemma segRowsOf_ex1 (n : ℕ) :
    segRowsOf ((0 : ℝ), (0 : ℝ)) ((0 : ℝ), lEx) n =
      [{ segment_id := PyVal.s (toString n), start_lat := PyVal.f 0, start_lng := PyVal.f 0,
         end_lat := PyVal.f 0, end_lng := PyVal.f lEx }] := by
  simp only [segRowsOf, interp_ex1, pairsOf]
  simp [List.enum]

/-- The reverse example pair emits exactly one segment row. -/
lemma segRowsOf_ex2 (n : ℕ) :
    segRowsOf ((0 : ℝ), lEx) ((0 : ℝ), (0 : ℝ)) n =
      [{ segment_id := PyVal.s (toString n), start_lat := PyVal.f 0, start_lng := PyVal.f lEx,
         end_lat := PyVal.f 0, end_lng := PyVal.f 0 }] := by
  simp only [segRowsOf, interp_ex2, pairsOf]
  simp [List.enum]

/-- The example road set generates exactly its forward and reverse segment,
with ids `"1"` and `"2"`. -/
lemma buildRows_ex : buildRows roadsEx = [rowEx1, rowEx2] := by
  have hrev : ([((0 : ℝ), (0 : ℝ)), ((0 : ℝ), lEx)]).reverse =
      [((0 : ℝ), lEx), ((0 : ℝ), (0 : ℝ))] := rfl
  simp only [buildRows, roadsEx, buildGo, hrev]
  have hp1 : pairsOf [((0 : ℝ), (0 : ℝ)), ((0 : ℝ), lEx)] =
      [(((0 : ℝ), (0 : ℝ)), ((0 : ℝ), lEx))] := rfl
  have hp2 : pairsOf [((0 : ℝ), lEx), ((0 : ℝ), (0 : ℝ))] =
      [(((0 : ℝ), lEx), ((0 : ℝ), (0 : ℝ)))] := rfl
  rw [hp1, hp2]
  simp only [emitPairs, segRowsOf_ex1, segRowsOf_ex2]
  simp [rowEx1, rowEx2]
  exact ⟨by decide, by decide⟩

/-! ### Claim C1: segment length bound -/

/-- C1 (counterexample): with the default maximum length `L = 5` m, the
catalogue generated from the example road (two equator points 8e-05° apart,
about 8.9 m) contains a segment whose start-to-end haversine distance
exceeds 5 m — far beyond floating tolerance.  `int()` floors the step count,
so a pair between `L` and `2 L` long is kept as a single over-long segment. -/
theorem C1_counterexample :
    ∃ r ∈ buildRows roadsEx, ∃ d, segLenM r = some d ∧ 5 < d := by
  refine ⟨rowEx1, ?_, haversine 0 0 0 lEx * 1000, ?_, ?_⟩
  · rw [buildRows_ex]
    exact List.mem_cons_self _ _
  · rfl
  · rw [hav_ex1]
    exact tEx_gt5

/-! ### Claim C5: catalogue persist/load roundtrip -/

/-- Every row the segmenter generates carries a string-valued segment id. -/
lemma segRowsOf_id (p q : ℝ × ℝ) (n : ℕ) :
    ∀ r ∈ segRowsOf p q n, ∃ s, r.segment_id = PyVal.s s := by
  intro r hr
  simp only [segRowsOf, List.mem_map] at hr
  obtain ⟨jab, _, rfl⟩ := hr
  exact ⟨toString (n + jab.1), rfl⟩

/-- Id invariant through one direction pass. -/
lemma emitPairs_id :
    ∀ (l : List ((ℝ × ℝ) × (ℝ × ℝ))) (n : ℕ),
      ∀ r ∈ (emitPairs l n).1, ∃ s, r.segment_id = PyVal.s s := by
  intro l
  induction l with
  | nil => intro n r hr; simp [emitPairs] at hr
  | cons pq rest ih =>
    intro n r hr
    simp only [emitPairs, List.mem_append] at hr
    rcases hr with hr | hr
    · exact segRowsOf_id pq.1 pq.2 n r hr
    · exact ih _ r hr

/-- Id invariant through the whole road loop. -/
lemma buildGo_id :
    ∀ (roads : List (String × List (ℝ × ℝ))) (n : ℕ),
      ∀ r ∈ buildGo roads n, ∃ s, r.segment_id = PyVal.s s := by
  intro roads
  induction roads with
  | nil => intro n r hr; simp [buildGo] at hr
  | cons rd rest ih =>
    intro n r hr
    simp only [buildGo, List.mem_append] at hr
    rcases hr with (hr | hr) | hr
    · exact emitPairs_id _ _ r hr
    · exact emitPairs_id _ _ r hr
    · exact ih _ r hr

/-- C5 (amended): the persist-then-load roundtrip of `generate_segments` is
not the identity — `csv.DictReader` returns every field as a string, while
generated rows hold float coordinates — but it does preserve the ordered
sequence of segment ids verbatim (ids are written as strings and read back
unchanged), which is the stability the spec contract is after. -/
theorem C5_amended (roads : List (String × List (ℝ × ℝ))) (render : ℝ → String) :
    (loadRows render (buildRows roads)).map Row.segment_id =
      (buildRows roads).map Row.segment_id := by
  rw [loadRows, List.map_map]
  apply List.map_congr_left
  intro r hr
  obtain ⟨s, hs⟩ := buildGo_id roads 1 r hr
  simp [loadRow, pyStrOf, hs]

/-- For the example road set and every possible float renderer, loading the
persisted catalogue does not reproduce the generated row sequence: the
generated first row stores `start_lat` as a float, the loaded one as a
string. -/
lemma loadRows_ne_buildRows (render : ℝ → String) :
    loadRows render (buildRows roadsEx) ≠ buildRows roadsEx := by
  intro h
  rw [buildRows_ex] at h
  simp only [loadRows, List.map] at h
  have h1 : loadRow render rowEx1 = rowEx1 := (List.cons.injEq _ _ _ _).mp h |>.1
  have h2 := congrArg Row.start_lat h1
  simp [loadRow, rowEx1] at h2

/-- A stand-in for the decimal rendering the Python runtime applies to floats
on CSV write.  The roundtrip mismatch below holds for every renderer
(`loadRows_ne_buildRows`); its decimal details are irrelevant. -/
noncomputable def renderEx : ℝ → String := fun _ => ("0.0")

/-- C5 (counterexample): for the example road set, loading the persisted
catalogue does not reproduce the generated row sequence — `csv.DictReader`
returns strings where generation stored floats.  The renderer is immaterial:
`loadRows_ne_buildRows` proves the mismatch for every renderer. -/
theorem C5_counterexample :
    loadRows renderEx (buildRows roadsEx) ≠ buildRows roadsEx :=
  loadRows_ne_buildRows renderEx

/-! ### Claim C8: routes with fewer than two points -/

/-- A route with fewer than two points has no consecutive point pairs. -/
lemma pairsOf_short (pts : List (ℝ × ℝ)) (h : pts.length < 2) : pairsOf pts = [] := by
  rcases pts with _ | ⟨p, _ | ⟨q, rest⟩⟩
  · rfl
  · rfl
  · simp at h
    omega

/-- Dropping a short route from the road list leaves the generated rows (and
the id counter) unchanged, wherever it sits. -/
lemma buildGo_skip (nm : String) (pts : List (ℝ × ℝ)) (h : pts.length < 2) :
    ∀ (pre post : List (String × List (ℝ × ℝ))) (n : ℕ),
      buildGo (pre ++ (nm, pts) :: post) n = buildGo (pre ++ post) n := by
  intro pre
  induction pre with
  | nil =>
    intro post n
    simp only [List.nil_append]
    rw [buildGo]
    rw [pairsOf_short pts h, pairsOf_short pts.reverse (by simpa using h)]
    simp [emitPairs]
  | cons rd rest ih =>
    intro post n
    simp only [List.cons_append]
    rw [buildGo, buildGo]
    rw [ih]

/-- C8 (amended): a route with fewer than 2 points does not make segmentation
fail — there is no `InvalidGeometry` error anywhere in the script — it is
silently skipped: the loop over consecutive point pairs is empty, the route
contributes no segments and does not advance the id counter, and all other
routes are segmented exactly as if it were absent. -/
theorem C8_amended (nm : String) (pts : List (ℝ × ℝ))
    (pre post : List (String × List (ℝ × ℝ))) (h : pts.length < 2) :
    buildRows (pre ++ (nm, pts) :: post) = buildRows (pre ++ post) := by
  rw [buildRows, buildRows, buildGo_skip nm pts h]

/-- C8 (witness): the amended claim instantiated with an empty route ahead of
the example road. -/
theorem C8_witness :
    (([] : List (ℝ × ℝ)).length < 2) ∧
    buildRows ([] ++ (("a"), ([] : List (ℝ × ℝ))) :: roadsEx) = buildRows ([] ++ roadsEx) :=
  ⟨by norm_num, C8_amended ("a") [] [] roadsEx (by norm_num)⟩

/-- C8 (counterexample): a road set holding an empty route next to the
example road is segmented without any error: `generate_segments` returns the
two segments of the example road — it does not fail with `InvalidGeometry` (no
such failure exists in the script). -/
theorem C8_counterexample :
    generate_segments_fresh ((("a"), ([] : List (ℝ × ℝ))) :: roadsEx) =
      Except.ok [rowEx1, rowEx2] := by
  have h : buildRows ((("a"), ([] : List (ℝ × ℝ))) :: roadsEx) = [rowEx1, rowEx2] := by
    have hskip := buildGo_skip ("a") [] (by norm_num) [] roadsEx 1
    simp only [List.nil_append] at hskip
    rw [buildRows, hskip]
    exact buildRows_ex
  rw [generate_segments_fresh, h]

/-! ### Claim C9: empty catalogue -/

/-- C9 (confirmed): when the road set yields no segments at all (for example
when every route has fewer than 2 points, or the set is empty), the write
branch fails with the `IndexError` of `segments[0]` instead of returning an
empty catalogue; whenever at least one segment is emitted, the branch is
total and returns exactly the generated rows. -/
theorem C9_theorem (roads : List (String × List (ℝ × ℝ))) :
    ((∀ p ∈ roads, (p.2).length < 2) →
      generate_segments_fresh roads = Except.error ("list index out of range")) ∧
    (∀ r rest, buildRows roads = r :: rest →
      generate_segments_fresh roads = Except.ok (r :: rest)) := by
  constructor
  · intro hall
    have hnil : ∀ (rs : List (String × List (ℝ × ℝ))),
        (∀ p ∈ rs, (p.2).length < 2) → ∀ n, buildGo rs n = [] := by
      intro rs
      induction rs with
      | nil => intro _ _; rfl
      | cons rd rest ih =>
        intro hall2 n
        have h1 : rd.2.length < 2 := hall2 rd (List.mem_cons_self _ _)
        rw [buildGo]
        rw [pairsOf_short _ h1, pairsOf_short _ (by simpa using h1)]
        simp only [emitPairs, List.nil_append]
        exact ih (fun p hp => hall2 p (List.mem_cons_of_mem _ hp)) n
    have h0 : buildRows roads = [] := hnil roads hall 1
    rw [generate_segments_fresh, h0]
  · intro r rest h
    rw [generate_segments_fresh, h]

/-- C9 (witness): the failing branch instantiated at a road set with a single
point-free route. -/
theorem C9_witness :
    (∀ p ∈ [(("a"), ([] : List (ℝ × ℝ)))], (p.2).length < 2) ∧
    generate_segments_fresh [(("a"), ([] : List (ℝ × ℝ)))] =
      Except.error ("list index out of range") := by
  have hp : ∀ p ∈ [(("a"), ([] : List (ℝ × ℝ)))], (p.2).length < 2 := by
    intro p hp
    rw [List.mem_singleton] at hp
    subst hp
    norm_num
  exact ⟨hp, (C9_theorem _).1 hp⟩

end KandyTraffic
